import Mathlib

/-!
Shallow embedding of the offline-first synchronization layer of the
duka-fiti-notes-reborn application (src/hooks/useOfflineFirstSupabase.ts).

The embedded parts are:
  * the IndexedDB wrapper `OfflineFirstDB` (object stores keyed by `id`,
    `set` = clear-then-put-each inside one transaction, `get` = getAll,
    defaulting to the empty list);
  * the controller state of the `useOfflineFirstSupabase` hook
    (`data`, `loading`, `error`, `isOnline`, `lastSyncTime`, the
    `initializationRef` and `loadingRef` refs);
  * the `loadData`, `handleOnline`, `handleOffline`, `refresh` and
    `testOffline` operations.

Modelling conventions: the asynchronous, event-loop code is embedded as a
sequential state-transformer (React state updates are taken to be immediate;
the event loop never interleaves two continuations of the same controller
between suspension points).  The outcomes of the fallible external calls
(the Supabase read, the IndexedDB set/get operations) are supplied by an
environment record `Env`, one oracle per call site reachable in a single
invocation.  An aborted IndexedDB `set` transaction rolls back, leaving the
store unchanged.
-/

set_option autoImplicit false

/-- An entity record: any business object identified by `id : string`
(the hook instantiates `T extends { id : string }`); the remaining fields
are abstracted into one payload value. -/
structure Rec where
  id : String
  val : Nat
deriving DecidableEq, Repr

/-- The IndexedDB database: named object stores, each holding a list of
records.  A store that was never written reads as empty. -/
abbrev DB := List (String × List Rec)

namespace OfflineFirstDB

/-- `store.put(item)` on an object store with `keyPath: 'id'`: replaces the
record with the same id if present, otherwise inserts the record. -/
def putRec (l : List Rec) (r : Rec) : List Rec :=
  if ∃ x ∈ l, x.id = r.id then
    l.map (fun x => if x.id = r.id then r else x)
  else
    l ++ [r]

/-- The table contents produced by `OfflineFirstDB.set(storeName, data)`:
the transaction clears the store, then puts each item of `data` in order. -/
def storeSet (data : List Rec) : List Rec :=
  data.foldl putRec []

/-- `OfflineFirstDB.set(storeName, data)`: replace the named store's
contents with `storeSet data`; all other stores are untouched. -/
def set (db : DB) (storeName : String) (data : List Rec) : DB :=
  (storeName, storeSet data) :: db.filter (fun p => p.1 ≠ storeName)

/-- `OfflineFirstDB.get(storeName)`: `getAll` on the store, resolving with
`request.result || []` — an absent store reads as the empty list. -/
def get (db : DB) (storeName : String) : List Rec :=
  (db.lookup storeName).getD []

/-- `OfflineFirstDB.clear(storeName)`: remove every record of the store. -/
def clear (db : DB) (storeName : String) : DB :=
  (storeName, []) :: db.filter (fun p => p.1 ≠ storeName)

end OfflineFirstDB

/-- The state of one `useOfflineFirstSupabase` controller instance:
the five `useState` cells, the two refs, and the durable store it talks to. -/
structure CtrlState where
  data : List Rec
  loading : Bool
  error : Option String
  isOnline : Bool
  lastSyncTime : Option Nat
  initialized : Bool
  loadingRef : Bool
  db : DB
deriving DecidableEq, Repr

/-- The environment of one `loadData` invocation: the authenticated user
(`useAuth`), the outcome the remote `loadFromSupabase` call would produce,
and one failure oracle per fallible IndexedDB call site (`setFail` for the
`offlineDB.set` after a successful remote read; `getFail` for the first
`offlineDB.get` reached — inner-catch fallback or cache-only branch;
`getFail2` for the emergency `offlineDB.get` in the outer catch), together
with the message of a thrown storage error and the current time. -/
structure Env where
  user : Bool
  remote : Except String (List Rec)
  setFail : Bool
  getFail : Bool
  getFail2 : Bool
  getFailMsg : String
  now : Nat

/-- The observable outcome of one `loadData` invocation: the post-state,
whether `loadFromSupabase` was called, whether the destructive error toast
was raised, and whether the call returned through the in-flight guard. -/
structure LoadOutcome where
  state : CtrlState
  remoteAttempted : Bool
  toastShown : Bool
  skipped : Bool
deriving DecidableEq, Repr

/-- The synchronous prefix of `loadData` once past both guards:
`loadingRef.current = true; setLoading(true)` — the controller state at the
first suspension point of the load body. -/
def enterLoad (s : CtrlState) : CtrlState :=
  { s with loadingRef := true, loading := true }

/-- The `finally` block of `loadData`: `setLoading(false);
loadingRef.current = false`, packaged with the invocation's observables. -/
def finallyStep (s : CtrlState) (attempted toast : Bool) : LoadOutcome :=
  { state := { s with loading := false, loadingRef := false },
    remoteAttempted := attempted, toastShown := toast, skipped := false }

/-- The outer `catch` of `loadData`: `setError(message)`, then the emergency
cache fallback (`setData(cached)`, or `setData([])` if that get also
throws), then the destructive toast — raised only when `isOnline` — then
the `finally` block.  `initializationRef` is not set on this path. -/
def outerCatch (cacheKey : String) (s : CtrlState) (e : Env) (msg : String)
    (attempted : Bool) : LoadOutcome :=
  let sErr : CtrlState := { s with error := some msg }
  let sData : CtrlState :=
    if e.getFail2 then { sErr with data := [] }
    else { sErr with data := OfflineFirstDB.get sErr.db cacheKey }
  finallyStep sData attempted sData.isOnline

/-- `loadData(forceRefresh)` of `useOfflineFirstSupabase`, transcribed
branch for branch:
1. if `loadingRef.current`, return immediately (skip);
2. if no user, `setData([]); setLoading(false); setError(null)` and stop;
3. otherwise set the in-flight flag and loading, then:
   online and (forceRefresh or not yet initialized) ⇒ remote read;
   on success cache it (`offlineDB.set`), serve it, clear error, stamp
   `lastSyncTime`; on remote or cache-write failure fall back to the cached
   data with no error; otherwise serve from cache only; mark initialized;
   a thrown storage read lands in the outer catch;
4. the `finally` block always clears `loading` and the in-flight flag. -/
def loadData (cacheKey : String) (s : CtrlState) (forceRefresh : Bool)
    (e : Env) : LoadOutcome :=
  if s.loadingRef then
    { state := s, remoteAttempted := false, toastShown := false, skipped := true }
  else if e.user = false then
    { state := { s with data := [], loading := false, error := none },
      remoteAttempted := false, toastShown := false, skipped := false }
  else
    let s1 := enterLoad s
    if s1.isOnline = true ∧ (forceRefresh = true ∨ s1.initialized = false) then
      match e.remote with
      | Except.ok supabaseData =>
        if e.setFail then
          -- offlineDB.set threw: the transaction aborted, fall to the
          -- inner catch and serve the (unchanged) cached data
          if e.getFail then
            outerCatch cacheKey s1 e e.getFailMsg true
          else
            finallyStep
              { s1 with data := OfflineFirstDB.get s1.db cacheKey,
                        error := none, initialized := true } true false
        else
          finallyStep
            { s1 with db := OfflineFirstDB.set s1.db cacheKey supabaseData,
                      data := supabaseData, error := none,
                      lastSyncTime := some e.now, initialized := true }
            true false
      | Except.error _ =>
        -- inner catch: fall back to cached data, suppress the error
        if e.getFail then
          outerCatch cacheKey s1 e e.getFailMsg true
        else
          finallyStep
            { s1 with data := OfflineFirstDB.get s1.db cacheKey,
                      error := none, initialized := true } true false
    else
      -- cache-only branch (offline, or online but not refresh-worthy)
      if e.getFail then
        outerCatch cacheKey s1 e e.getFailMsg false
      else
        finallyStep
          { s1 with data := OfflineFirstDB.get s1.db cacheKey,
                    error := none, initialized := true } false false

/-- `refresh()`: `loadData(true)`. -/
def refresh (cacheKey : String) (s : CtrlState) (e : Env) : LoadOutcome :=
  loadData cacheKey s true e

/-- The `handleOnline` listener: `setIsOnline(true)`, then
`if (user && !loadingRef.current) refresh()`.  Returns the outcome and
whether `refresh` was invoked. -/
def handleOnline (cacheKey : String) (s : CtrlState) (e : Env) :
    LoadOutcome × Bool :=
  let s1 : CtrlState := { s with isOnline := true }
  if e.user = true ∧ s1.loadingRef = false then
    (refresh cacheKey s1 e, true)
  else
    ({ state := s1, remoteAttempted := false, toastShown := false,
       skipped := false }, false)

/-- The `handleOffline` listener: `setIsOnline(false)` and nothing else. -/
def handleOffline (s : CtrlState) : CtrlState :=
  { s with isOnline := false }

/-- The mount effect: `if (!initializationRef.current) loadData(false)`. -/
def initialLoad (cacheKey : String) (s : CtrlState) (e : Env) : LoadOutcome :=
  if s.initialized = false then loadData cacheKey s false e
  else { state := s, remoteAttempted := false, toastShown := false,
         skipped := false }

/-- The `TestResult` returned by `testOffline`: success flag, message, and
the `cacheSize` detail (present on success). -/
structure TestResult where
  success : Bool
  message : String
  cacheSize : Option Nat
deriving DecidableEq, Repr

/-- `testOffline()`: read the cache, force `isOnline` to false, run
`loadData(false)`, restore `isOnline`, and report success with the observed
cache size; report failure only when the initial cache read throws
(`loadData` itself never rejects).  Returns the result and the post-state. -/
def testOffline (cacheKey : String) (s : CtrlState) (e : Env) :
    TestResult × CtrlState :=
  if e.getFail then
    ({ success := false,
       message := "Offline test failed: " ++ e.getFailMsg,
       cacheSize := none }, s)
  else
    let cachedData := OfflineFirstDB.get s.db cacheKey
    let originalOnline := s.isOnline
    let out := loadData cacheKey { s with isOnline := false } false e
    ({ success := true,
       message := "Offline test passed. " ++ toString cachedData.length ++
                  " items available in cache.",
       cacheSize := some cachedData.length },
     { out.state with isOnline := originalOnline })

/-! ### Store lemmas -/

/-- Putting a record whose id is absent appends it. -/
theorem putRec_of_not_mem (l : List Rec) (r : Rec)
    (h : r.id ∉ l.map Rec.id) :
    OfflineFirstDB.putRec l r = l ++ [r] := by
  unfold OfflineFirstDB.putRec
  rw [if_neg]
  rintro ⟨x, hx, hid⟩
  exact h (hid ▸ List.mem_map_of_mem Rec.id hx)

/-- Folding `putRec` over records with globally fresh ids appends them. -/
theorem foldl_putRec_eq (X : List Rec) : ∀ acc : List Rec,
    ((acc ++ X).map Rec.id).Nodup →
    X.foldl OfflineFirstDB.putRec acc = acc ++ X := by
  induction X with
  | nil => intro acc _; simp
  | cons r xs ih =>
    intro acc h
    have hassoc : acc ++ r :: xs = (acc ++ [r]) ++ xs := by simp
    have h2 : (((acc ++ [r]) ++ xs).map Rec.id).Nodup := by
      rw [← hassoc]; exact h
    have hr : r.id ∉ acc.map Rec.id := by
      have h3 := h
      rw [List.map_append, List.map_cons] at h3
      have h4 := (List.nodup_middle).mp h3
      have h5 := (List.nodup_cons.mp h4).1
      intro hmem
      exact h5 (List.mem_append.mpr (Or.inl hmem))
    rw [List.foldl_cons, putRec_of_not_mem acc r hr, ih (acc ++ [r]) h2,
        hassoc]

/-- `storeSet` is the identity on record lists with pairwise distinct ids. -/
theorem storeSet_eq_of_nodup (X : List Rec) (h : (X.map Rec.id).Nodup) :
    OfflineFirstDB.storeSet X = X := by
  unfold OfflineFirstDB.storeSet
  have h2 := foldl_putRec_eq X [] (by simpa using h)
  simpa using h2

/-- Reading a store right after replacing it yields the replaced contents,
whatever was stored before. -/
theorem get_set_same (db : DB) (k : String) (X : List Rec) :
    OfflineFirstDB.get (OfflineFirstDB.set db k X) k =
      OfflineFirstDB.storeSet X := by
  unfold OfflineFirstDB.get OfflineFirstDB.set
  simp [List.lookup]

/-! ### Path characterizations of `loadData` -/

/-- In-flight guard: a call while `loadingRef` is set returns immediately,
changing nothing and attempting nothing. -/
theorem loadData_skip (k : String) (s : CtrlState) (f : Bool) (e : Env)
    (h : s.loadingRef = true) :
    loadData k s f e =
      { state := s, remoteAttempted := false, toastShown := false,
        skipped := true } := by
  unfold loadData
  rw [if_pos h]

/-- No-user path: data cleared, loading stopped, error cleared, everything
else (the store included) untouched. -/
theorem loadData_no_user (k : String) (s : CtrlState) (f : Bool) (e : Env)
    (hflag : s.loadingRef = false) (hu : e.user = false) :
    loadData k s f e =
      { state := { s with data := [], loading := false, error := none },
        remoteAttempted := false, toastShown := false, skipped := false } := by
  unfold loadData
  rw [if_neg (by simp [hflag]), if_pos hu]

/-- Remote-success path: the store's mirror is replaced, the returned set is
served, the error is cleared and the sync time stamped. -/
theorem loadData_remote_ok (k : String) (s : CtrlState) (f : Bool) (e : Env)
    (S : List Rec)
    (hflag : s.loadingRef = false) (hu : e.user = true)
    (hon : s.isOnline = true) (hfresh : f = true ∨ s.initialized = false)
    (hrem : e.remote = Except.ok S) (hset : e.setFail = false) :
    loadData k s f e =
      { state := { s with db := OfflineFirstDB.set s.db k S, data := S,
                          error := none, lastSyncTime := some e.now,
                          initialized := true, loading := false,
                          loadingRef := false },
        remoteAttempted := true, toastShown := false, skipped := false } := by
  unfold loadData enterLoad finallyStep
  rw [if_neg (by simp [hflag]), if_neg (by simp [hu])]
  rw [if_pos (by exact ⟨hon, hfresh⟩), hrem]
  simp [hset]

/-- Remote-failure path (inner catch, cache readable): the cached mirror is
served, the error is suppressed, the store and sync time are untouched. -/
theorem loadData_remote_err (k : String) (s : CtrlState) (f : Bool) (e : Env)
    (msg : String)
    (hflag : s.loadingRef = false) (hu : e.user = true)
    (hon : s.isOnline = true) (hfresh : f = true ∨ s.initialized = false)
    (hrem : e.remote = Except.error msg) (hget : e.getFail = false) :
    loadData k s f e =
      { state := { s with data := OfflineFirstDB.get s.db k, error := none,
                          initialized := true, loading := false,
                          loadingRef := false },
        remoteAttempted := true, toastShown := false, skipped := false } := by
  unfold loadData enterLoad finallyStep
  rw [if_neg (by simp [hflag]), if_neg (by simp [hu])]
  rw [if_pos (by exact ⟨hon, hfresh⟩), hrem]
  simp [hget]

/-- Cache-write-failure path (remote read succeeded, `offlineDB.set` threw,
cache readable): identical to the remote-failure fallback — the set
transaction rolled back, so the old mirror is served. -/
theorem loadData_set_fail (k : String) (s : CtrlState) (f : Bool) (e : Env)
    (S : List Rec)
    (hflag : s.loadingRef = false) (hu : e.user = true)
    (hon : s.isOnline = true) (hfresh : f = true ∨ s.initialized = false)
    (hrem : e.remote = Except.ok S) (hset : e.setFail = true)
    (hget : e.getFail = false) :
    loadData k s f e =
      { state := { s with data := OfflineFirstDB.get s.db k, error := none,
                          initialized := true, loading := false,
                          loadingRef := false },
        remoteAttempted := true, toastShown := false, skipped := false } := by
  unfold loadData enterLoad finallyStep
  rw [if_neg (by simp [hflag]), if_neg (by simp [hu])]
  rw [if_pos (by exact ⟨hon, hfresh⟩), hrem]
  simp [hset, hget]

/-- Cache-only path (offline, or online without a refresh-worthy load):
the cached mirror is served with no remote attempt; store untouched. -/
theorem loadData_cache_only (k : String) (s : CtrlState) (f : Bool) (e : Env)
    (hflag : s.loadingRef = false) (hu : e.user = true)
    (hcond : ¬ (s.isOnline = true ∧ (f = true ∨ s.initialized = false)))
    (hget : e.getFail = false) :
    loadData k s f e =
      { state := { s with data := OfflineFirstDB.get s.db k, error := none,
                          initialized := true, loading := false,
                          loadingRef := false },
        remoteAttempted := false, toastShown := false, skipped := false } := by
  unfold loadData enterLoad finallyStep
  rw [if_neg (by simp [hflag]), if_neg (by simp [hu])]
  rw [if_neg (by simpa using hcond)]
  simp [hget]

/-! ### Claim theorems -/

/-- Claim C1: for a `loadData` call with an authenticated user, while
online, with `forceRefresh` set or this being the first load since
controller creation, if the remote read succeeds returning the record set
`S` (distinct ids, as remote entity tables are keyed by id), then the served
snapshot equals `S`, the durable store's mirror for the entity equals `S`
(a full replace of whatever was stored before), and the last-sync timestamp
is updated. -/
theorem c1_read_through (k : String) (s : CtrlState) (f : Bool) (e : Env)
    (S : List Rec)
    (hflag : s.loadingRef = false) (hu : e.user = true)
    (hon : s.isOnline = true) (hfresh : f = true ∨ s.initialized = false)
    (hrem : e.remote = Except.ok S) (hset : e.setFail = false)
    (hids : (S.map Rec.id).Nodup) :
    (loadData k s f e).state.data = S ∧
    OfflineFirstDB.get (loadData k s f e).state.db k = S ∧
    (loadData k s f e).state.lastSyncTime = some e.now := by
  rw [loadData_remote_ok k s f e S hflag hu hon hfresh hrem hset]
  refine ⟨rfl, ?_, rfl⟩
  exact (get_set_same s.db k S).trans (storeSet_eq_of_nodup S hids)

/-- Witness state for the read-through claim: fresh controller, online,
with a stale record in the store that the load must replace. -/
def sC1 : CtrlState :=
  { data := [], loading := true, error := none, isOnline := true,
    lastSyncTime := none, initialized := false, loadingRef := false,
    db := [("products", [{ id := "z", val := 9 }])] }

/-- Witness environment: authenticated, remote read returns two records. -/
def eC1 : Env :=
  { user := true,
    remote := Except.ok [{ id := "a", val := 1 }, { id := "b", val := 2 }],
    setFail := false, getFail := false, getFail2 := false,
    getFailMsg := "", now := 5 }

/-- Witness for C1 at a concrete fresh controller and remote result. -/
theorem c1_read_through_witness :
    (loadData "products" sC1 true eC1).state.data =
      [{ id := "a", val := 1 }, { id := "b", val := 2 }] ∧
    OfflineFirstDB.get (loadData "products" sC1 true eC1).state.db
        "products" =
      [{ id := "a", val := 1 }, { id := "b", val := 2 }] ∧
    (loadData "products" sC1 true eC1).state.lastSyncTime = some 5 :=
  c1_read_through "products" sC1 true eC1
    [{ id := "a", val := 1 }, { id := "b", val := 2 }]
    rfl rfl rfl (Or.inl rfl) rfl rfl (by decide)

/-- A record list with a duplicated id: the id-keyed object store collapses
it, so `put` then `getAll` cannot return it. -/
def xDup : List Rec := [{ id := "a", val := 1 }, { id := "a", val := 2 }]

/-- Claim C2 counterexample: for the concrete list `xDup` whose two records
share one id, `put` followed by `getAll` does not return the records of
`xDup` even up to order — the second `put` overwrites the first, so only
one record survives. -/
theorem c2_put_getAll_cex :
    ¬ List.Perm
        (OfflineFirstDB.get (OfflineFirstDB.set [] "products" xDup)
          "products")
        xDup := by decide

/-- Claim C2 (amended): for every table, every prior store contents, and
every record list `X` with pairwise distinct ids, the bulk replace
`put(T, X)` followed by `getAll(T)` returns exactly `X`, regardless of what
was previously stored. -/
theorem c2_put_getAll (db : DB) (k : String) (X : List Rec)
    (h : (X.map Rec.id).Nodup) :
    OfflineFirstDB.get (OfflineFirstDB.set db k X) k = X :=
  (get_set_same db k X).trans (storeSet_eq_of_nodup X h)

/-- Witness for the amended C2: a table holding a stale record is fully
replaced by a two-record list. -/
theorem c2_put_getAll_witness :
    OfflineFirstDB.get
        (OfflineFirstDB.set [("sales", [{ id := "z", val := 9 }])] "sales"
          [{ id := "a", val := 1 }, { id := "b", val := 2 }])
        "sales" =
      [{ id := "a", val := 1 }, { id := "b", val := 2 }] :=
  c2_put_getAll [("sales", [{ id := "z", val := 9 }])] "sales"
    [{ id := "a", val := 1 }, { id := "b", val := 2 }] (by decide)

/-- Claim C3: a `loadData` call made while offline with an authenticated
user and a non-empty prior mirror `M` serves exactly `M` and makes no
remote read attempt. -/
theorem c3_offline_fallback (k : String) (s : CtrlState) (f : Bool)
    (e : Env) (M : List Rec)
    (hflag : s.loadingRef = false) (hu : e.user = true)
    (hoff : s.isOnline = false) (hget : e.getFail = false)
    (hM : OfflineFirstDB.get s.db k = M) (hne : M ≠ []) :
    (loadData k s f e).state.data = M ∧
    (loadData k s f e).remoteAttempted = false := by
  rw [loadData_cache_only k s f e hflag hu (by simp [hoff]) hget]
  exact ⟨hM, rfl⟩

/-- Witness state for the offline-fallback claim: offline controller with
one cached record. -/
def sC3 : CtrlState :=
  { data := [], loading := false, error := none, isOnline := false,
    lastSyncTime := none, initialized := true, loadingRef := false,
    db := [("customers", [{ id := "c", val := 7 }])] }

/-- Witness environment for C3: authenticated, storage healthy (the remote
oracle is irrelevant since no remote call happens). -/
def eC3 : Env :=
  { user := true, remote := Except.error "unreachable", setFail := false,
    getFail := false, getFail2 := false, getFailMsg := "", now := 0 }

/-- Witness for C3 at a concrete offline controller with one cached
customer. -/
theorem c3_offline_fallback_witness :
    (loadData "customers" sC3 false eC3).state.data =
      [{ id := "c", val := 7 }] ∧
    (loadData "customers" sC3 false eC3).remoteAttempted = false :=
  c3_offline_fallback "customers" sC3 false eC3 [{ id := "c", val := 7 }]
    rfl rfl rfl rfl (by decide) (by decide)

/-- Claim C7: a `loadData` call with no authenticated caller (reaching the
auth check, i.e. with no load in flight) resets the served data to empty,
clears the error, stops loading, and does nothing else: the whole outcome
is exactly that reset — in particular the durable store is unchanged and no
remote read is attempted. -/
theorem c7_no_user_reset (k : String) (s : CtrlState) (f : Bool) (e : Env)
    (hflag : s.loadingRef = false) (hu : e.user = false) :
    loadData k s f e =
      { state := { s with data := [], loading := false, error := none },
        remoteAttempted := false, toastShown := false,
        skipped := false } ∧
    (loadData k s f e).state.db = s.db ∧
    (loadData k s f e).remoteAttempted = false := by
  rw [loadData_no_user k s f e hflag hu]
  exact ⟨rfl, rfl, rfl⟩

/-- Witness state for the no-user claim: signed-out controller that still
holds served data and a cached mirror. -/
def sC7 : CtrlState :=
  { data := [{ id := "a", val := 1 }], loading := true,
    error := some "old", isOnline := true, lastSyncTime := some 3,
    initialized := true, loadingRef := false,
    db := [("products", [{ id := "a", val := 1 }])] }

/-- Witness environment for C7: no authenticated user. -/
def eC7 : Env :=
  { user := false, remote := Except.ok [], setFail := false,
    getFail := false, getFail2 := false, getFailMsg := "", now := 0 }

/-- Witness for C7 at a concrete signed-out controller. -/
theorem c7_no_user_reset_witness :
    loadData "products" sC7 false eC7 =
      { state := { sC7 with data := [], loading := false, error := none },
        remoteAttempted := false, toastShown := false,
        skipped := false } ∧
    (loadData "products" sC7 false eC7).state.db = sC7.db ∧
    (loadData "products" sC7 false eC7).remoteAttempted = false :=
  c7_no_user_reset "products" sC7 false eC7 rfl rfl

/-- On the refresh-worthy online path the remote read is attempted in every
subcase (success, cache-write failure, remote failure, storage failure). -/
theorem loadData_attempts_remote (k : String) (s : CtrlState) (e : Env)
    (hflag : s.loadingRef = false) (hu : e.user = true)
    (hon : s.isOnline = true) :
    (loadData k s true e).remoteAttempted = true := by
  unfold loadData enterLoad finallyStep outerCatch
  rw [if_neg (by simp [hflag]), if_neg (by simp [hu])]
  rw [if_pos (by exact ⟨hon, Or.inl rfl⟩)]
  cases e.remote with
  | ok S =>
    by_cases hset : e.setFail = true
    · by_cases hget : e.getFail = true
      · simp [hset, hget, finallyStep]
      · simp [hset, hget]
    · simp [hset]
  | error m =>
    by_cases hget : e.getFail = true
    · simp [hget, finallyStep]
    · simp [hget]

/-- Claim C4: mutual exclusion of loads.  Once a first `loadData` call has
passed its guards it raises the in-flight flag synchronously (before its
first suspension point), every state with the flag raised makes any further
`loadData` call return immediately — unchanged state, no remote attempt —
and the first (forced, online) call attempts exactly one remote read; hence
two concurrent calls produce exactly one remote read attempt. -/
theorem c4_no_duplicate_loads (k : String) (s : CtrlState) (f2 : Bool)
    (e e2 : Env)
    (hflag : s.loadingRef = false) (hu : e.user = true)
    (hon : s.isOnline = true) :
    (enterLoad s).loadingRef = true ∧
    (∀ s2 : CtrlState, s2.loadingRef = true →
      loadData k s2 f2 e2 =
        { state := s2, remoteAttempted := false, toastShown := false,
          skipped := true }) ∧
    (loadData k s true e).remoteAttempted = true := by
  refine ⟨rfl, ?_, loadData_attempts_remote k s e hflag hu hon⟩
  intro s2 h2
  exact loadData_skip k s2 f2 e2 h2

/-- Witness for C4: a concrete online controller; the mid-flight state
skips a second call and the first call performs its one remote read. -/
theorem c4_no_duplicate_loads_witness :
    (enterLoad sC1).loadingRef = true ∧
    (∀ s2 : CtrlState, s2.loadingRef = true →
      loadData "products" s2 false eC3 =
        { state := s2, remoteAttempted := false, toastShown := false,
          skipped := true }) ∧
    (loadData "products" sC1 true eC1).remoteAttempted = true :=
  c4_no_duplicate_loads "products" sC1 false eC1 eC3 rfl rfl rfl

/-- Claim C5: when the remote read fails while the local mirror is
non-empty, the controller serves exactly the cached mirror contents
(the Degraded state of the spec), sets no error value, and raises no
error toast. -/
theorem c5_degraded_serves_cache (k : String) (s : CtrlState) (f : Bool)
    (e : Env) (msg : String)
    (hflag : s.loadingRef = false) (hu : e.user = true)
    (hon : s.isOnline = true) (hfresh : f = true ∨ s.initialized = false)
    (hrem : e.remote = Except.error msg) (hget : e.getFail = false)
    (hne : OfflineFirstDB.get s.db k ≠ []) :
    (loadData k s f e).state.data = OfflineFirstDB.get s.db k ∧
    (loadData k s f e).state.error = none ∧
    (loadData k s f e).toastShown = false := by
  rw [loadData_remote_err k s f e msg hflag hu hon hfresh hrem hget]
  exact ⟨rfl, rfl, rfl⟩

/-- Witness state for the degraded-fallback claim: online controller with
five cached customers. -/
def sC5 : CtrlState :=
  { data := [], loading := false, error := none, isOnline := true,
    lastSyncTime := none, initialized := true, loadingRef := false,
    db := [("customers",
            [{ id := "c1", val := 1 }, { id := "c2", val := 2 },
             { id := "c3", val := 3 }, { id := "c4", val := 4 },
             { id := "c5", val := 5 }])] }

/-- Witness environment for C5: authenticated, the remote read throws a
network error, storage healthy. -/
def eC5 : Env :=
  { user := true, remote := Except.error "network error", setFail := false,
    getFail := false, getFail2 := false, getFailMsg := "", now := 0 }

/-- Witness for C5: the five cached customers are served, no error, no
toast. -/
theorem c5_degraded_serves_cache_witness :
    (loadData "customers" sC5 true eC5).state.data =
      OfflineFirstDB.get sC5.db "customers" ∧
    (loadData "customers" sC5 true eC5).state.error = none ∧
    (loadData "customers" sC5 true eC5).toastShown = false :=
  c5_degraded_serves_cache "customers" sC5 true eC5 "network error"
    rfl rfl rfl (Or.inl rfl) rfl rfl (by decide)

/-- First-ever-load state for C6: offline, empty store, uninitialized. -/
def sC6first : CtrlState :=
  { data := [], loading := true, error := none, isOnline := false,
    lastSyncTime := none, initialized := false, loadingRef := false,
    db := [] }

/-- The same controller state but long past its first load. -/
def sC6later : CtrlState := { sC6first with initialized := true }

/-- Offline environment for C6: authenticated, storage healthy. -/
def eC6 : Env :=
  { user := true, remote := Except.error "unreachable", setFail := false,
    getFail := false, getFail2 := false, getFailMsg := "", now := 0 }

/-- Claim C6 counterexample: on a first-ever load while offline with an
empty mirror the controller surfaces nothing distinct — its outcome (data,
error, every observable) is identical to that of a routine non-first
cache-only load of an empty mirror, and the error value is `none`; the
no-data condition is only logged, never surfaced to the caller. -/
theorem c6_no_distinct_condition_cex :
    loadData "products" sC6first false eC6 =
      loadData "products" sC6later false eC6 ∧
    sC6first ≠ sC6later ∧
    (loadData "products" sC6first false eC6).state.error = none ∧
    (loadData "products" sC6first false eC6).state.data = [] := by
  decide

/-- Claim C6 (amended): a first-ever load performed while offline with an
empty local mirror completes with empty served data, a `none` error, no
toast and no remote attempt — no generic or hard error is raised, but no
caller-visible no-data indicator distinct from an ordinary empty result is
produced either (the condition is only written to the console log). -/
theorem c6_first_load_offline_empty (k : String) (s : CtrlState) (e : Env)
    (hflag : s.loadingRef = false) (hu : e.user = true)
    (hoff : s.isOnline = false) (hinit : s.initialized = false)
    (hget : e.getFail = false) (hempty : OfflineFirstDB.get s.db k = []) :
    (loadData k s false e).state.data = [] ∧
    (loadData k s false e).state.error = none ∧
    (loadData k s false e).toastShown = false ∧
    (loadData k s false e).remoteAttempted = false := by
  rw [loadData_cache_only k s false e hflag hu (by simp [hoff]) hget]
  exact ⟨hempty, rfl, rfl, rfl⟩

/-- Witness for the amended C6 at the concrete first-ever offline state. -/
theorem c6_first_load_offline_empty_witness :
    (loadData "products" sC6first false eC6).state.data = [] ∧
    (loadData "products" sC6first false eC6).state.error = none ∧
    (loadData "products" sC6first false eC6).toastShown = false ∧
    (loadData "products" sC6first false eC6).remoteAttempted = false :=
  c6_first_load_offline_empty "products" sC6first eC6 rfl rfl rfl rfl rfl
    (by decide)

/-- In-flight state used by the C8 counterexample: authenticated, offline,
a load currently in flight, a cached product available. -/
def sC8flight : CtrlState :=
  { data := [], loading := true, error := none, isOnline := false,
    lastSyncTime := none, initialized := true, loadingRef := true,
    db := [("products", [{ id := "a", val := 1 }])] }

/-- Online environment with a successful remote read, shared by the C8 and
C9 material. -/
def eOnlineOk : Env :=
  { user := true, remote := Except.ok [{ id := "a", val := 1 }],
    setFail := false, getFail := false, getFail2 := false,
    getFailMsg := "", now := 1 }

/-- Claim C8 counterexample: a transition to online with an authenticated
user but a load in flight performs no automatic refresh at all — `refresh`
is not invoked and no remote read is attempted — refuting "on every
offline-to-online transition with an authenticated user the controller
performs a forced refresh". -/
theorem c8_went_online_cex :
    (handleOnline "products" sC8flight eOnlineOk).2 = false ∧
    (handleOnline "products" sC8flight eOnlineOk).1.remoteAttempted =
      false := by
  decide

/-- An unforced load (`forceRefresh = false`) on an already-initialized
controller never attempts a remote read: the `forceRefresh ||
!initializationRef.current` condition fails, so only the cache (or the
outer catch, if it throws) is reached. -/
theorem loadData_unforced_no_remote (k : String) (s : CtrlState) (e : Env)
    (hinit : s.initialized = true) :
    (loadData k s false e).remoteAttempted = false := by
  unfold loadData enterLoad finallyStep outerCatch
  by_cases hflag : s.loadingRef = true
  · rw [if_pos hflag]
  · rw [if_neg hflag]
    by_cases hu : e.user = false
    · rw [if_pos hu]
    · rw [if_neg hu]
      rw [if_neg (by simp [hinit])]
      by_cases hget : e.getFail = true
      · simp [hget, finallyStep]
      · simp [hget]

/-- A load on an offline controller never attempts a remote read,
`forceRefresh` or not. -/
theorem loadData_offline_no_remote (k : String) (s : CtrlState) (f : Bool)
    (e : Env) (hoff : s.isOnline = false) :
    (loadData k s f e).remoteAttempted = false := by
  unfold loadData enterLoad finallyStep outerCatch
  by_cases hflag : s.loadingRef = true
  · rw [if_pos hflag]
  · rw [if_neg hflag]
    by_cases hu : e.user = false
    · rw [if_pos hu]
    · rw [if_neg hu]
      rw [if_neg (by simp [hoff])]
      by_cases hget : e.getFail = true
      · simp [hget, finallyStep]
      · simp [hget]

/-- Claim C8 (amended): on a went-online transition with an authenticated
user and no load in flight the controller invokes the exposed `refresh`
operation — the performed refresh IS that operation — and a remote read is
attempted; if a load is in flight, the transition only records the online
flag: no refresh, no remote read.  The went-online event remains the sole
automatic trigger of this forced refresh besides the manually exposed
`refresh`: every other load entry point passes `forceRefresh = false`
(`initialLoad` runs `loadData k s false e`; `testOffline` runs
`loadData k (s with the online flag forced off) false e`), and such
unforced calls never perform the refresh read-through — an unforced load on
an initialized controller attempts no remote read, the mount effect on an
initialized controller attempts no remote read, and the diagnostic probe's
internal call, being offline, attempts none either. -/
theorem c8_went_online_refresh (k : String) (s : CtrlState) (e : Env)
    (hu : e.user = true) :
    (s.loadingRef = false →
      (handleOnline k s e).2 = true ∧
      (handleOnline k s e).1 =
        refresh k { s with isOnline := true } e ∧
      (handleOnline k s e).1.remoteAttempted = true) ∧
    (s.loadingRef = true →
      (handleOnline k s e).2 = false ∧
      (handleOnline k s e).1.remoteAttempted = false ∧
      (handleOnline k s e).1.state = { s with isOnline := true }) ∧
    (∀ s2 : CtrlState, ∀ e2 : Env, s2.initialized = true →
      (loadData k s2 false e2).remoteAttempted = false) ∧
    (∀ s2 : CtrlState, ∀ e2 : Env, s2.initialized = true →
      (initialLoad k s2 e2).remoteAttempted = false) ∧
    (∀ s2 : CtrlState, ∀ e2 : Env,
      (loadData k { s2 with isOnline := false } false e2).remoteAttempted =
        false) := by
  refine ⟨?_, ?_, ?_, ?_, ?_⟩
  · intro hflag
    unfold handleOnline
    rw [if_pos (by exact ⟨hu, hflag⟩)]
    refine ⟨rfl, rfl, ?_⟩
    exact loadData_attempts_remote k { s with isOnline := true } e hflag hu
      rfl
  · intro hflag
    unfold handleOnline
    rw [if_neg (by simp [hflag])]
    exact ⟨rfl, rfl, rfl⟩
  · intro s2 e2 hinit
    exact loadData_unforced_no_remote k s2 e2 hinit
  · intro s2 e2 hinit
    unfold initialLoad
    rw [if_neg (by simp [hinit])]
  · intro s2 e2
    exact loadData_offline_no_remote k { s2 with isOnline := false } false
      e2 rfl

/-- Witness for the amended C8: went-online on an idle authenticated
controller triggers the forced refresh and its remote read, while unforced
entry points on that table attempt no remote read. -/
theorem c8_went_online_refresh_witness :
    ((sC5.loadingRef = false →
      (handleOnline "products" sC5 eOnlineOk).2 = true ∧
      (handleOnline "products" sC5 eOnlineOk).1 =
        refresh "products" { sC5 with isOnline := true } eOnlineOk ∧
      (handleOnline "products" sC5 eOnlineOk).1.remoteAttempted = true) ∧
    (sC5.loadingRef = true →
      (handleOnline "products" sC5 eOnlineOk).2 = false ∧
      (handleOnline "products" sC5 eOnlineOk).1.remoteAttempted = false ∧
      (handleOnline "products" sC5 eOnlineOk).1.state =
        { sC5 with isOnline := true }) ∧
    (∀ s2 : CtrlState, ∀ e2 : Env, s2.initialized = true →
      (loadData "products" s2 false e2).remoteAttempted = false) ∧
    (∀ s2 : CtrlState, ∀ e2 : Env, s2.initialized = true →
      (initialLoad "products" s2 e2).remoteAttempted = false) ∧
    (∀ s2 : CtrlState, ∀ e2 : Env,
      (loadData "products" { s2 with isOnline := false } false
          e2).remoteAttempted =
        false)) ∧
    (handleOnline "products" sC5 eOnlineOk).2 = true ∧
    (handleOnline "products" sC5 eOnlineOk).1.remoteAttempted = true :=
  have h := c8_went_online_refresh "products" sC5 eOnlineOk rfl
  ⟨h, (h.1 rfl).1, (h.1 rfl).2.2⟩

/-- Empty-cache controller used by the C9 counterexample. -/
def sC9empty : CtrlState :=
  { data := [], loading := false, error := none, isOnline := true,
    lastSyncTime := none, initialized := true, loadingRef := false,
    db := [] }

/-- Claim C9 counterexample: with an empty local mirror (nothing servable)
`testOffline` still returns a pass result, refuting "returns a fail result
otherwise". -/
theorem c9_test_offline_cex :
    OfflineFirstDB.get sC9empty.db "products" = [] ∧
    (testOffline "products" sC9empty eOnlineOk).1.success = true := by
  decide

/-- Claim C9 (amended): `testOffline` runs the load path once with the
online flag forced off and then restored; it returns a pass result with the
observed cache size whenever the initial cache read succeeds — regardless
of whether the mirror is empty — and returns a fail result only when that
read throws (in which case the state is untouched). -/
theorem c9_test_offline (k : String) (s : CtrlState) (e : Env) :
    (e.getFail = false →
      (testOffline k s e).1.success = true ∧
      (testOffline k s e).1.cacheSize =
        some (OfflineFirstDB.get s.db k).length ∧
      (testOffline k s e).2.isOnline = s.isOnline) ∧
    (e.getFail = true →
      (testOffline k s e).1.success = false ∧
      (testOffline k s e).2 = s) := by
  constructor
  · intro hget
    unfold testOffline
    rw [if_neg (by simp [hget])]
    exact ⟨rfl, rfl, rfl⟩
  · intro hget
    unfold testOffline
    rw [if_pos hget]
    exact ⟨rfl, rfl⟩

/-- Witness for the amended C9: on the five-customer controller the test
passes and reports cache size 5. -/
theorem c9_test_offline_witness :
    (testOffline "customers" sC5 eC5).1.success = true ∧
    (testOffline "customers" sC5 eC5).1.cacheSize =
      some (OfflineFirstDB.get sC5.db "customers").length ∧
    (testOffline "customers" sC5 eC5).2.isOnline = sC5.isOnline :=
  (c9_test_offline "customers" sC5 eC5).1 rfl

/-- Claim C10: every `loadData` invocation that enters the load path (the
in-flight guard not taken, which is the only case in which the flag is held
by another call) terminates with the loading indicator false and the
in-flight flag released — on the remote path, the cache path, and every
error path — so no completed load blocks a later call. -/
theorem c10_load_releases_flags (k : String) (s : CtrlState) (f : Bool)
    (e : Env) (hflag : s.loadingRef = false) :
    (loadData k s f e).state.loading = false ∧
    (loadData k s f e).state.loadingRef = false := by
  unfold loadData enterLoad finallyStep outerCatch
  rw [if_neg (by simp [hflag])]
  by_cases hu : e.user = false
  · rw [if_pos hu]
    exact ⟨rfl, hflag⟩
  · rw [if_neg hu]
    by_cases hcond : s.isOnline = true ∧ (f = true ∨ s.initialized = false)
    · rw [if_pos (by exact hcond)]
      cases e.remote with
      | ok S =>
        by_cases hset : e.setFail = true
        · by_cases hget : e.getFail = true
          · simp [hset, hget, finallyStep]
          · simp [hset, hget]
        · simp [hset]
      | error m =>
        by_cases hget : e.getFail = true
        · simp [hget, finallyStep]
        · simp [hget]
    · rw [if_neg (by exact hcond)]
      by_cases hget : e.getFail = true
      · simp [hget, finallyStep]
      · simp [hget]

/-- Worst-case environment for the C10 witness: the remote read throws and
both cache reads throw too. -/
def eAllFail : Env :=
  { user := true, remote := Except.error "network error", setFail := true,
    getFail := true, getFail2 := true, getFailMsg := "storage gone",
    now := 0 }

/-- Witness for C10 on a concrete storage-failure path (remote read throws
and both cache reads throw): the flags are still released. -/
theorem c10_load_releases_flags_witness :
    (loadData "products" sC9empty true eAllFail).state.loading = false ∧
    (loadData "products" sC9empty true eAllFail).state.loadingRef =
      false :=
  c10_load_releases_flags "products" sC9empty true eAllFail rfl
